import Mathlib

/-!
# AirportSearch API — shallow embedding and verification

A shallow embedding of the request-handling core of the AirportSearch API
(`app/main.py`, `app/models.py`, `app/schemas.py`):

* the data model: one record type per SQLAlchemy model, one `Store` holding
  the database tables as lists of rows (nullable columns become `Option`,
  SQL `REAL`/float columns are modelled as exact rationals — no claim
  computes with them);
* the auth gate `verify_api_key`;
* the endpoint `get_airports_by_name`, including PostgreSQL `ILIKE`
  pattern-match semantics for `.ilike(f"%{name}%")`, the row multiplication
  introduced by `joinedload(Airport.navaids)` (a LEFT OUTER JOIN), the
  `result.unique()` deduplication, and the serialization of each airport
  into the `AirportSchema` response shape (resolving the lazy `runways` /
  `frequencies` relationships exactly as the ORM does: by equality between
  the child row's `airport_ident` and the airport's `ident`);
* the request pipeline `handleRequest`, mirroring FastAPI's global
  `dependencies=[Depends(verify_api_key)]`: the gate runs first and an
  `HTTPException` raised there short-circuits the route handler.
-/

/-! ## SQL ILIKE pattern matching

PostgreSQL `LIKE` patterns: `%` matches any sequence of characters, `_` any
single character, backslash escapes the following character; `ILIKE` is the
same match with case-insensitive comparison of the literal characters.
-/

/-- One token of a parsed LIKE pattern. -/
inductive LikeTok where
  | lit (c : Char)
  | anyOne
  | anyMany
deriving DecidableEq, Repr

/-- Tokeniser worker: `esc` records that the previous character was an
unconsumed backslash, so the next character is taken literally. -/
def parseLikeAux : Bool → List Char → List LikeTok
  | esc, [] => if esc then [.lit '\\'] else []
  | esc, c :: rest =>
    if esc then .lit c :: parseLikeAux false rest
    else if c = '\\' then parseLikeAux true rest
    else if c = '%' then .anyMany :: parseLikeAux false rest
    else if c = '_' then .anyOne :: parseLikeAux false rest
    else .lit c :: parseLikeAux false rest

/-- Parse a LIKE pattern into tokens: `\c` is the literal `c`, `%` matches any
sequence, `_` matches any single character, any other character is a literal.
(A pattern ending in a bare backslash is an error in PostgreSQL; the patterns
built by the endpoint always end in `%` and never reach that case, which is
totalised as a literal backslash.) -/
def parseLike (l : List Char) : List LikeTok := parseLikeAux false l

/-- Case-insensitive character comparison, as `ILIKE` applies to literal
pattern characters. -/
def charCI (c d : Char) : Bool := c.toLower == d.toLower

/-- Matcher for a tokenised LIKE pattern against a string.  `%` tries every
suffix of the remaining input, the standard declarative reading of the SQL
wildcard. -/
def likeMatch : List LikeTok → List Char → Bool
  | [], s => s.isEmpty
  | .lit c :: ts, s =>
    match s with
    | [] => false
    | d :: ds => charCI c d && likeMatch ts ds
  | .anyOne :: ts, s =>
    match s with
    | [] => false
    | _ :: ds => likeMatch ts ds
  | .anyMany :: ts, s => s.tails.any (fun suf => likeMatch ts suf)

/-- `s ILIKE pat`, the predicate behind `Airport.name.ilike(like_pattern)`. -/
def sqlIlike (s : String) (pat : String) : Bool :=
  likeMatch (parseLike pat.toList) s.toList

/-- `NULL ILIKE pat` is SQL `NULL`, which a `WHERE` clause treats as false:
a row whose `name` column is `NULL` never matches on `name`. -/
def optIlike : Option String → String → Bool
  | none, _ => false
  | some s, pat => sqlIlike s pat

/-! ## Spec-side matching policy

The specification describes the matching policy as a case-insensitive
substring ("contains") test.  These definitions follow the spec's words and
exist to be compared with the `ILIKE` behaviour of the code. -/

/-- Boolean list-prefix test (used by the spec-side substring test). -/
def isPrefixB : List Char → List Char → Bool
  | [], _ => true
  | _ :: _, [] => false
  | c :: cs, d :: ds => c == d && isPrefixB cs ds

/-- Boolean list-containment test: does `hay` contain `needle` as a
contiguous sublist? -/
def containsB (needle : List Char) : List Char → Bool
  | [] => needle.isEmpty
  | d :: ds => isPrefixB needle (d :: ds) || containsB needle ds

/-- Spec-side predicate: `hay` contains `needle` as a case-insensitive
substring (unanchored). -/
def containsCI (hay needle : String) : Bool :=
  containsB (needle.toList.map Char.toLower) (hay.toList.map Char.toLower)

/-! ## Data model (`app/models.py`) -/

/-- `airport_types` reference table. -/
structure AirportType where
  code : String
  description : Option String
deriving DecidableEq, Repr

/-- `api_keys` table. -/
structure APIKey where
  id : Option Int
  key : String
  is_active : Option Bool
deriving DecidableEq, Repr

/-- `countries` reference table. -/
structure Country where
  id : Option Int
  code : String
  name : Option String
  continent : Option String
  wikipedia_link : Option String
  keywords : Option String
deriving DecidableEq, Repr

/-- `navid_types` reference table. -/
structure NavidType where
  code : String
  description : Option String
deriving DecidableEq, Repr

/-- `regions` reference table. -/
structure Region where
  id : Option Int
  code : String
  local_code : Option String
  name : Option String
  continent : Option String
  iso_country : Option String
  wikipedia_link : Option String
  keywords : Option String
deriving DecidableEq, Repr

/-- `frequencies` table. -/
structure Frequency where
  id : Option Int
  airport_ref : Option Int
  airport_ident : Option String
  type : Option String
  description : Option String
  frequency_mhz : Option Rat
deriving DecidableEq, Repr

/-- `navaids` table. -/
structure Navaid where
  id : Option Int
  filename : Option String
  ident : Option String
  name : Option String
  type : Option String
  frequency_khz : Option Int
  latitude_deg : Option Rat
  longitude_deg : Option Rat
  elevation_ft : Option Int
  iso_country : Option String
  dme_frequency_khz : Option Int
  dme_channel : Option String
  dme_latitude_deg : Option Rat
  dme_longitude_deg : Option Rat
  dme_elevation_ft : Option Int
  slaved_variation_deg : Option String
  magnetic_variation_deg : Option Rat
  usagetype : Option String
  power : Option String
  associated_airport : Option String
deriving DecidableEq, Repr

/-- `runways` table. -/
structure Runway where
  id : Option Int
  airport_ref : Option Int
  airport_ident : Option String
  length_ft : Option Int
  width_ft : Option Int
  surface : Option String
  lighted : Option Int
  closed : Option Int
  le_ident : Option String
  le_latitude_deg : Option Rat
  le_longitude_deg : Option Rat
  le_elevation_ft : Option Int
  le_heading_degt : Option Int
  le_displaced_threshold_ft : Option Int
  he_ident : Option String
  he_latitude_deg : Option Rat
  he_longitude_deg : Option Rat
  he_elevation_ft : Option Int
  he_heading_degt : Option Int
  he_displaced_threshold_ft : Option Int
deriving DecidableEq, Repr

/-- `airports` table; `ident` is the primary key. -/
structure Airport where
  id : Option Int
  ident : String
  type : Option String
  name : Option String
  latitude_deg : Option Rat
  longitude_deg : Option Rat
  elevation_ft : Option Int
  continent : Option String
  iso_country : Option String
  iso_region : Option String
  municipality : Option String
  scheduled_service : Option String
  gps_code : Option String
  iata_code : Option String
  local_code : Option String
  home_link : Option String
  wikipedia_link : Option String
  keywords : Option String
deriving DecidableEq, Repr

/-- The database: the tables the request path reads. -/
structure Store where
  airports : List Airport
  airportTypes : List AirportType
  countries : List Country
  regions : List Region
  navaids : List Navaid
  runways : List Runway
  frequencies : List Frequency
  apiKeys : List APIKey
deriving DecidableEq, Repr

/-- Well-formedness of a store: primary keys are unique (each of these
columns is declared `primary_key` or `unique` in `app/models.py`). -/
def Store.WF (db : Store) : Prop :=
  (db.airports.map Airport.ident).Nodup ∧
  (db.countries.map Country.code).Nodup ∧
  (db.regions.map Region.code).Nodup ∧
  (db.airportTypes.map AirportType.code).Nodup ∧
  (db.apiKeys.map APIKey.key).Nodup

instance (db : Store) : Decidable db.WF := by
  unfold Store.WF; infer_instance

/-! ## Auth gate (`verify_api_key` in `app/main.py`) -/

/-- Outcome of the auth gate: pass, or an `HTTPException(status, detail)`. -/
inductive AuthResult where
  | authorized
  | rejected (statusCode : Nat) (detail : String)
deriving DecidableEq, Repr

/-- The auth gate.  A missing header arrives as `none` (the `APIKeyHeader`
has `auto_error=False`); Python's `if not api_key` also treats the empty
string as missing.  Otherwise the store is queried for a row with
`key == api_key AND is_active IS TRUE`. -/
def verify_api_key (db : Store) (api_key : Option String) : AuthResult :=
  match api_key with
  | none => .rejected 401 "Missing API key"
  | some k =>
    if k = "" then .rejected 401 "Missing API key"
    else
      match db.apiKeys.find? (fun row => row.key == k && row.is_active == some true) with
      | none => .rejected 401 "Invalid or inactive API key"
      | some _ => .authorized

/-! ## Query / projection engine (`get_airports_by_name` in `app/main.py`) -/

/-- The `WHERE` clause:
`Airport.name.ilike(like_pattern) | Airport.ident.ilike(like_pattern)`
with `like_pattern = f"%{name}%"`. -/
def airportMatches (a : Airport) (name : String) : Bool :=
  optIlike a.name ("%" ++ name ++ "%") || sqlIlike a.ident ("%" ++ name ++ "%")

/-- Row multiplication introduced by `joinedload(Airport.navaids)`: the
generated LEFT OUTER JOIN emits one row per associated navaid, and one row
with a NULL navaid side when the airport has none.  (The `airport_type`,
`country` and `region` joins are many-to-one and multiply nothing.) -/
def joinedRows (db : Store) (matched : List Airport) : List Airport :=
  matched.flatMap (fun a =>
    match db.navaids.filter (fun n => n.associated_airport == some a.ident) with
    | [] => [a]
    | ns => ns.map (fun _ => a))

/-- Deduplication worker: drop rows whose primary key was already seen. -/
def uniqueByIdentAux (seen : List String) : List Airport → List Airport
  | [] => []
  | a :: rest =>
    if a.ident ∈ seen then uniqueByIdentAux seen rest
    else a :: uniqueByIdentAux (a.ident :: seen) rest

/-- `result.unique()`: deduplicate ORM entities by identity, i.e. by the
primary key `ident`, keeping the first occurrence. -/
def uniqueByIdent (l : List Airport) : List Airport := uniqueByIdentAux [] l

/-- The deduplicated entity list produced by
`db.execute(select(Airport)...).unique().scalars().all()`. -/
def findAirports (db : Store) (name : String) : List Airport :=
  uniqueByIdent (joinedRows db (db.airports.filter (fun a => airportMatches a name)))

/-- The `AirportSchema` response shape (`app/schemas.py`): the airport's
columns plus the resolved relationships. -/
structure AirportView where
  id : Option Int
  ident : String
  type : Option String
  name : Option String
  latitude_deg : Option Rat
  longitude_deg : Option Rat
  elevation_ft : Option Int
  continent : Option String
  iso_country : Option String
  iso_region : Option String
  municipality : Option String
  scheduled_service : Option String
  gps_code : Option String
  iata_code : Option String
  local_code : Option String
  home_link : Option String
  wikipedia_link : Option String
  keywords : Option String
  airport_type : Option AirportType
  country : Option Country
  region : Option Region
  runways : List Runway
  frequencies : List Frequency
  navaids : List Navaid
deriving DecidableEq, Repr

/-- Serialization of one ORM `Airport` into `AirportSchema`.  Relationship
fields resolve exactly as the ORM relationships do: `airport_type`,
`country`, `region` by equality of the foreign-key column with the reference
table's `code`; `navaids` by `Airport.ident == foreign(Navaid.associated_airport)`;
`runways` and `frequencies` (lazy relationships, loaded during response
serialization while the request's session is still open) by
`foreign(child.airport_ident) == Airport.ident`. -/
def toAirportView (db : Store) (a : Airport) : AirportView :=
  { id := a.id
    ident := a.ident
    type := a.type
    name := a.name
    latitude_deg := a.latitude_deg
    longitude_deg := a.longitude_deg
    elevation_ft := a.elevation_ft
    continent := a.continent
    iso_country := a.iso_country
    iso_region := a.iso_region
    municipality := a.municipality
    scheduled_service := a.scheduled_service
    gps_code := a.gps_code
    iata_code := a.iata_code
    local_code := a.local_code
    home_link := a.home_link
    wikipedia_link := a.wikipedia_link
    keywords := a.keywords
    airport_type := db.airportTypes.find? (fun t => a.type == some t.code)
    country := db.countries.find? (fun c => a.iso_country == some c.code)
    region := db.regions.find? (fun r => a.iso_region == some r.code)
    runways := db.runways.filter (fun r => r.airport_ident == some a.ident)
    frequencies := db.frequencies.filter (fun f => f.airport_ident == some a.ident)
    navaids := db.navaids.filter (fun n => n.associated_airport == some a.ident) }

/-- Outcome of the route handler: `404` when no airport matched, otherwise
the serialized list. -/
inductive QueryResult where
  | notFound (statusCode : Nat) (detail : String)
  | ok (airports : List AirportView)
deriving DecidableEq, Repr

/-- The route handler `get_airports_by_name`. -/
def get_airports_by_name (db : Store) (name : String) : QueryResult :=
  if (findAirports db name).isEmpty then
    .notFound 404 "No airport found with that name or ident"
  else
    .ok ((findAirports db name).map (toAirportView db))

/-! ## Request pipeline (`app = FastAPI(dependencies=[Depends(verify_api_key)])`) -/

/-- Externally observable response of one request. -/
inductive Response where
  | unauthorized (statusCode : Nat) (detail : String)
  | notFound (statusCode : Nat) (detail : String)
  | ok (airports : List AirportView)
deriving DecidableEq, Repr

/-- One request through the app.  The global dependency `verify_api_key`
runs before the route handler; its `HTTPException` short-circuits the
request.  The boolean in the result records whether the route handler's
airport query against the store was executed. -/
def handleRequest (db : Store) (api_key : Option String) (name : String) :
    Response × Bool :=
  match verify_api_key db api_key with
  | .rejected s d => (.unauthorized s d, false)
  | .authorized =>
    match get_airports_by_name db name with
    | .notFound s d => (.notFound s d, true)
    | .ok vs => (.ok vs, true)

/-! ## Concrete stores used as test fixtures -/

/-- The KJFK airport of the specification's concrete scenario. -/
def kjfk : Airport :=
  { id := some 1, ident := "KJFK", type := some "large_airport",
    name := some "John F Kennedy Intl", latitude_deg := none,
    longitude_deg := none, elevation_ft := none, continent := none,
    iso_country := some "US", iso_region := some "US-NY", municipality := none,
    scheduled_service := none, gps_code := none, iata_code := none,
    local_code := none, home_link := none, wikipedia_link := none,
    keywords := none }

def usCountry : Country :=
  { id := some 1, code := "US", name := some "United States",
    continent := none, wikipedia_link := none, keywords := none }

def nyRegion : Region :=
  { id := some 1, code := "US-NY", local_code := none, name := none,
    continent := none, iso_country := some "US", wikipedia_link := none,
    keywords := none }

def largeAirportType : AirportType :=
  { code := "large_airport", description := some "Large airport" }

def kjfkRunway : Runway :=
  { id := some 1, airport_ref := some 1, airport_ident := some "KJFK",
    length_ft := none, width_ft := none, surface := none, lighted := none,
    closed := none, le_ident := none, le_latitude_deg := none,
    le_longitude_deg := none, le_elevation_ft := none, le_heading_degt := none,
    le_displaced_threshold_ft := none, he_ident := none,
    he_latitude_deg := none, he_longitude_deg := none, he_elevation_ft := none,
    he_heading_degt := none, he_displaced_threshold_ft := none }

def kjfkFrequency : Frequency :=
  { id := some 1, airport_ref := some 1, airport_ident := some "KJFK",
    type := none, description := none, frequency_mhz := none }

def activeKey : APIKey := { id := some 1, key := "valid-key", is_active := some true }

def inactiveKey : APIKey := { id := some 2, key := "inactive-key", is_active := some false }

/-- The specification's concrete scenario store: KJFK with one runway, one
frequency, no navaids; one active and one inactive API key. -/
def dbJFK : Store :=
  { airports := [kjfk], airportTypes := [largeAirportType],
    countries := [usCountry], regions := [nyRegion], navaids := [],
    runways := [kjfkRunway], frequencies := [kjfkFrequency],
    apiKeys := [activeKey, inactiveKey] }

/-- An airport whose name and ident are the literal string `AB`. -/
def airportAB : Airport :=
  { id := some 1, ident := "AB", type := none, name := some "AB",
    latitude_deg := none, longitude_deg := none, elevation_ft := none,
    continent := none, iso_country := none, iso_region := none,
    municipality := none, scheduled_service := none, gps_code := none,
    iata_code := none, local_code := none, home_link := none,
    wikipedia_link := none, keywords := none }

/-- Store exercising LIKE metacharacter queries. -/
def db1 : Store :=
  { airports := [airportAB], airportTypes := [], countries := [], regions := [],
    navaids := [], runways := [], frequencies := [], apiKeys := [activeKey] }

/-- An airport whose `ident` is the empty string. -/
def blankAirport : Airport :=
  { id := some 1, ident := "", type := none, name := none,
    latitude_deg := none, longitude_deg := none, elevation_ft := none,
    continent := none, iso_country := none, iso_region := none,
    municipality := none, scheduled_service := none, gps_code := none,
    iata_code := none, local_code := none, home_link := none,
    wikipedia_link := none, keywords := none }

/-- A navaid whose `associated_airport` is blank (the empty string). -/
def blankNavaid : Navaid :=
  { id := some 1, filename := none, ident := none, name := none, type := none,
    frequency_khz := none, latitude_deg := none, longitude_deg := none,
    elevation_ft := none, iso_country := none, dme_frequency_khz := none,
    dme_channel := none, dme_latitude_deg := none, dme_longitude_deg := none,
    dme_elevation_ft := none, slaved_variation_deg := none,
    magnetic_variation_deg := none, usagetype := none, power := none,
    associated_airport := some "" }

/-- Store with a blank-ident airport and a blank-associated navaid. -/
def db5 : Store :=
  { airports := [blankAirport], airportTypes := [], countries := [],
    regions := [], navaids := [blankNavaid], runways := [], frequencies := [],
    apiKeys := [activeKey] }

/-- An airport with two associated navaids, to exercise row multiplication. -/
def airportKAAA : Airport :=
  { id := some 1, ident := "KAAA", type := none, name := some "Alpha Field",
    latitude_deg := none, longitude_deg := none, elevation_ft := none,
    continent := none, iso_country := none, iso_region := none,
    municipality := none, scheduled_service := none, gps_code := none,
    iata_code := none, local_code := none, home_link := none,
    wikipedia_link := none, keywords := none }

def navaidKAAA1 : Navaid :=
  { id := some 1, filename := none, ident := some "AAA", name := none,
    type := none, frequency_khz := none, latitude_deg := none,
    longitude_deg := none, elevation_ft := none, iso_country := none,
    dme_frequency_khz := none, dme_channel := none, dme_latitude_deg := none,
    dme_longitude_deg := none, dme_elevation_ft := none,
    slaved_variation_deg := none, magnetic_variation_deg := none,
    usagetype := none, power := none, associated_airport := some "KAAA" }

def navaidKAAA2 : Navaid :=
  { id := some 2, filename := none, ident := some "AAB", name := none,
    type := none, frequency_khz := none, latitude_deg := none,
    longitude_deg := none, elevation_ft := none, iso_country := none,
    dme_frequency_khz := none, dme_channel := none, dme_latitude_deg := none,
    dme_longitude_deg := none, dme_elevation_ft := none,
    slaved_variation_deg := none, magnetic_variation_deg := none,
    usagetype := none, power := none, associated_airport := some "KAAA" }

/-- Store where the navaid join multiplies the matched airport's rows. -/
def db4 : Store :=
  { airports := [airportKAAA], airportTypes := [], countries := [],
    regions := [], navaids := [navaidKAAA1, navaidKAAA2], runways := [],
    frequencies := [], apiKeys := [activeKey] }

/-! ## Properties of the ILIKE matcher -/

theorem charCI_iff (c d : Char) : charCI c d = true ↔ c.toLower = d.toLower := by
  simp [charCI]

/-- A trailing `%` after a run of literals: the pattern accepts exactly the
strings that case-insensitively start with those literals. -/
theorem likeMatch_lits_anyMany (cs t : List Char) :
    likeMatch (cs.map LikeTok.lit ++ [.anyMany]) t = true ↔
      ∃ b, t.map Char.toLower = cs.map Char.toLower ++ b := by
  induction cs generalizing t with
  | nil =>
    simp only [List.map_nil, List.nil_append]
    constructor
    · intro _; exact ⟨t.map Char.toLower, rfl⟩
    · intro _
      have : likeMatch [LikeTok.anyMany] t = t.tails.any (fun suf => likeMatch [] suf) :=
        rfl
      rw [this, List.any_eq_true]
      exact ⟨[], (List.mem_tails _ _).mpr List.nil_suffix, rfl⟩
  | cons c cs ih =>
    cases t with
    | nil =>
      have : likeMatch ((c :: cs).map LikeTok.lit ++ [.anyMany]) ([] : List Char) = false :=
        rfl
      rw [this]
      simp
    | cons d ds =>
      have hstep : likeMatch ((c :: cs).map LikeTok.lit ++ [.anyMany]) (d :: ds)
          = (charCI c d && likeMatch (cs.map LikeTok.lit ++ [.anyMany]) ds) := rfl
      rw [hstep, Bool.and_eq_true, charCI_iff, ih]
      constructor
      · rintro ⟨hcd, b, hb⟩
        exact ⟨b, by simp [hcd, hb]⟩
      · rintro ⟨b, hb⟩
        simp only [List.map_cons, List.cons_append, List.cons.injEq] at hb
        exact ⟨hb.1.symm, b, hb.2⟩

/-- A leading `%`: the rest of the pattern is tried on every suffix. -/
theorem likeMatch_anyMany_iff (ts : List LikeTok) (t : List Char) :
    likeMatch (.anyMany :: ts) t = true ↔
      ∃ pre suf, t = pre ++ suf ∧ likeMatch ts suf = true := by
  show List.any _ _ = true ↔ _
  rw [List.any_eq_true]
  constructor
  · rintro ⟨suf, hsuf, hm⟩
    obtain ⟨pre, rfl⟩ := (List.mem_tails _ _).mp hsuf
    exact ⟨pre, suf, rfl, hm⟩
  · rintro ⟨pre, suf, rfl, hm⟩
    exact ⟨suf, (List.mem_tails _ _).mpr ⟨pre, rfl⟩, hm⟩

theorem parseLike_percent (r : List Char) :
    parseLike ('%' :: r) = .anyMany :: parseLike r := by
  simp [parseLike, parseLikeAux]

/-- Parsing a metacharacter-free run of characters followed by `%`. -/
theorem parseLike_clean (cs : List Char)
    (h : ∀ c ∈ cs, c ≠ '%' ∧ c ≠ '_' ∧ c ≠ '\\') :
    parseLike (cs ++ ['%']) = cs.map LikeTok.lit ++ [.anyMany] := by
  induction cs with
  | nil => rfl
  | cons c cs ih =>
    obtain ⟨h1, h2, h3⟩ := h c (List.mem_cons_self _ _)
    have hrest : ∀ x ∈ cs, x ≠ '%' ∧ x ≠ '_' ∧ x ≠ '\\' :=
      fun x hx => h x (List.mem_cons_of_mem _ hx)
    have ih' := ih hrest
    rw [parseLike] at ih' ⊢
    simp only [List.cons_append, parseLikeAux, h1, h2, h3, if_false,
      Bool.false_eq_true, ite_false, if_neg h3, if_neg h1, if_neg h2]
    show LikeTok.lit c :: parseLikeAux false (cs ++ ['%'])
        = List.map LikeTok.lit (c :: cs) ++ [LikeTok.anyMany]
    rw [ih']
    rfl

theorem pattern_toList (S : String) :
    ("%" ++ S ++ "%").toList = '%' :: (S.toList ++ ['%']) := by
  show ("%" ++ S ++ "%").data = '%' :: (S.data ++ ['%'])
  rw [String.data_append, String.data_append]
  rfl

/-- `ILIKE` with a both-sides-wildcarded, metacharacter-free query is the
case-insensitive substring test. -/
theorem sqlIlike_wrapped_iff (t S : String)
    (h : ∀ c ∈ S.toList, c ≠ '%' ∧ c ≠ '_' ∧ c ≠ '\\') :
    sqlIlike t ("%" ++ S ++ "%") = true ↔
      ∃ a b, t.toList.map Char.toLower = a ++ S.toList.map Char.toLower ++ b := by
  rw [sqlIlike, pattern_toList, parseLike_percent, parseLike_clean S.toList h,
    likeMatch_anyMany_iff]
  constructor
  · rintro ⟨pre, suf, hsplit, hm⟩
    obtain ⟨b, hb⟩ := (likeMatch_lits_anyMany _ _).mp hm
    refine ⟨pre.map Char.toLower, b, ?_⟩
    rw [hsplit, List.map_append, hb, List.append_assoc]
  · rintro ⟨a, b, hab⟩
    refine ⟨t.toList.take a.length, t.toList.drop a.length,
      (List.take_append_drop _ _).symm, ?_⟩
    refine (likeMatch_lits_anyMany _ _).mpr ⟨b, ?_⟩
    rw [List.map_drop, hab, List.append_assoc, List.drop_left]

theorem isPrefixB_iff (n h : List Char) : isPrefixB n h = true ↔ ∃ b, h = n ++ b := by
  induction n generalizing h with
  | nil =>
    simp only [isPrefixB, List.nil_append]
    constructor
    · intro _; exact ⟨h, rfl⟩
    · intro _; trivial
  | cons c cs ih =>
    cases h with
    | nil =>
      simp [isPrefixB]
    | cons d ds =>
      simp only [isPrefixB, Bool.and_eq_true, beq_iff_eq, ih, List.cons_append,
        List.cons.injEq]
      constructor
      · rintro ⟨hcd, b, hb⟩; exact ⟨b, hcd.symm, hb⟩
      · rintro ⟨b, hdc, hb⟩; exact ⟨hdc.symm, b, hb⟩

theorem containsB_iff (n h : List Char) :
    containsB n h = true ↔ ∃ a b, h = a ++ n ++ b := by
  induction h with
  | nil =>
    simp only [containsB, List.isEmpty_iff]
    constructor
    · rintro rfl; exact ⟨[], [], rfl⟩
    · rintro ⟨a, b, hb⟩
      rcases List.append_eq_nil.mp hb.symm with ⟨h1, h2⟩
      exact (List.append_eq_nil.mp h1).2
  | cons d ds ih =>
    simp only [containsB, Bool.or_eq_true, isPrefixB_iff, ih]
    constructor
    · rintro (⟨b, hb⟩ | ⟨a, b, hb⟩)
      · exact ⟨[], b, by simp [hb]⟩
      · exact ⟨d :: a, b, by simp [hb]⟩
    · rintro ⟨a, b, hb⟩
      cases a with
      | nil => exact Or.inl ⟨b, by simpa using hb⟩
      | cons x xs =>
        refine Or.inr ⟨xs, b, ?_⟩
        simp only [List.cons_append, List.cons.injEq] at hb
        exact hb.2

theorem containsCI_iff (hay needle : String) :
    containsCI hay needle = true ↔
      ∃ a b, hay.toList.map Char.toLower = a ++ needle.toList.map Char.toLower ++ b := by
  rw [containsCI, containsB_iff]

/-- For a query without LIKE metacharacters, `ILIKE '%query%'` is exactly the
case-insensitive substring test of the specification. -/
theorem sqlIlike_iff_containsCI (t S : String)
    (h : ∀ c ∈ S.toList, c ≠ '%' ∧ c ≠ '_' ∧ c ≠ '\\') :
    sqlIlike t ("%" ++ S ++ "%") = true ↔ containsCI t S = true :=
  (sqlIlike_wrapped_iff t S h).trans (containsCI_iff t S).symm

/-- The `WHERE` clause of the endpoint, for a metacharacter-free query,
accepts an airport exactly when its name or its ident contains the query as
a case-insensitive substring. -/
theorem airportMatches_iff (a : Airport) (S : String)
    (h : ∀ c ∈ S.toList, c ≠ '%' ∧ c ≠ '_' ∧ c ≠ '\\') :
    airportMatches a S = true ↔
      ((∃ nm, a.name = some nm ∧ containsCI nm S = true) ∨
        containsCI a.ident S = true) := by
  unfold airportMatches
  rw [Bool.or_eq_true, sqlIlike_iff_containsCI a.ident S h]
  cases hn : a.name with
  | none => simp [optIlike]
  | some nm =>
    simp only [optIlike, sqlIlike_iff_containsCI nm S h, Option.some.injEq]
    constructor
    · rintro (hc | hc)
      · exact Or.inl ⟨nm, rfl, hc⟩
      · exact Or.inr hc
    · rintro (⟨nm2, rfl, hc⟩ | hc)
      · exact Or.inl hc
      · exact Or.inr hc

/-! ## Properties of the join, deduplication and serialization steps -/

/-- The LEFT-OUTER-JOIN row multiplication changes multiplicities only: the
set of airports is unchanged. -/
theorem mem_joinedRows (db : Store) (l : List Airport) (a : Airport) :
    a ∈ joinedRows db l ↔ a ∈ l := by
  unfold joinedRows
  rw [List.mem_flatMap]
  constructor
  · rintro ⟨x, hx, hax⟩
    have hax' : a = x := by
      revert hax
      cases db.navaids.filter (fun n => n.associated_airport == some x.ident) with
      | nil => intro hax; simpa using hax
      | cons n ns =>
        intro hax
        obtain ⟨_, _, rfl⟩ := List.mem_map.mp hax
        rfl
    exact hax' ▸ hx
  · intro ha
    refine ⟨a, ha, ?_⟩
    cases db.navaids.filter (fun n => n.associated_airport == some a.ident) with
    | nil => simp
    | cons n ns => simp

theorem mem_of_mem_uniqueByIdentAux (seen : List String) (l : List Airport)
    (a : Airport) : a ∈ uniqueByIdentAux seen l → a ∈ l := by
  induction l generalizing seen with
  | nil => intro h; simp [uniqueByIdentAux] at h
  | cons x rest ih =>
    intro h
    rw [uniqueByIdentAux] at h
    by_cases hseen : x.ident ∈ seen
    · rw [if_pos hseen] at h
      exact List.mem_cons_of_mem _ (ih seen h)
    · rw [if_neg hseen] at h
      rcases List.mem_cons.mp h with rfl | h2
      · exact List.mem_cons_self _ _
      · exact List.mem_cons_of_mem _ (ih _ h2)

theorem exists_mem_uniqueByIdentAux (seen : List String) (l : List Airport)
    (a : Airport) (ha : a ∈ l) (hs : a.ident ∉ seen) :
    ∃ b ∈ uniqueByIdentAux seen l, b.ident = a.ident := by
  induction l generalizing seen with
  | nil => simp at ha
  | cons x rest ih =>
    rw [uniqueByIdentAux]
    by_cases hseen : x.ident ∈ seen
    · rw [if_pos hseen]
      rcases List.mem_cons.mp ha with rfl | ha2
      · exact absurd hseen hs
      · exact ih seen ha2 hs
    · rw [if_neg hseen]
      by_cases hid : a.ident = x.ident
      · exact ⟨x, List.mem_cons_self _ _, hid.symm⟩
      · rcases List.mem_cons.mp ha with rfl | ha2
        · exact absurd rfl hid
        · obtain ⟨b, hb, hbid⟩ :=
            ih (x.ident :: seen) ha2 (by simp [hid, hs])
          exact ⟨b, List.mem_cons_of_mem _ hb, hbid⟩

theorem ident_not_seen_of_mem_uniqueByIdentAux (seen : List String)
    (l : List Airport) (b : Airport) (hb : b ∈ uniqueByIdentAux seen l) :
    b.ident ∉ seen := by
  induction l generalizing seen with
  | nil => simp [uniqueByIdentAux] at hb
  | cons x rest ih =>
    rw [uniqueByIdentAux] at hb
    by_cases hseen : x.ident ∈ seen
    · rw [if_pos hseen] at hb
      exact ih seen hb
    · rw [if_neg hseen] at hb
      rcases List.mem_cons.mp hb with rfl | hb2
      · exact hseen
      · have := ih _ hb2
        intro hmem
        exact this (List.mem_cons_of_mem _ hmem)

theorem nodup_ident_uniqueByIdentAux (seen : List String) (l : List Airport) :
    ((uniqueByIdentAux seen l).map Airport.ident).Nodup := by
  induction l generalizing seen with
  | nil => simp [uniqueByIdentAux]
  | cons x rest ih =>
    rw [uniqueByIdentAux]
    by_cases hseen : x.ident ∈ seen
    · rw [if_pos hseen]; exact ih seen
    · rw [if_neg hseen]
      simp only [List.map_cons, List.nodup_cons]
      refine ⟨?_, ih _⟩
      intro hmem
      obtain ⟨b, hb, hbid⟩ := List.mem_map.mp hmem
      have := ident_not_seen_of_mem_uniqueByIdentAux _ _ _ hb
      exact this (hbid ▸ List.mem_cons_self _ _)

/-- The output of `unique()` has pairwise distinct primary keys. -/
theorem nodup_ident_uniqueByIdent (l : List Airport) :
    ((uniqueByIdent l).map Airport.ident).Nodup :=
  nodup_ident_uniqueByIdentAux [] l

theorem mem_of_mem_uniqueByIdent (l : List Airport) (a : Airport)
    (h : a ∈ uniqueByIdent l) : a ∈ l :=
  mem_of_mem_uniqueByIdentAux [] l a h

theorem exists_mem_uniqueByIdent (l : List Airport) (a : Airport) (ha : a ∈ l) :
    ∃ b ∈ uniqueByIdent l, b.ident = a.ident :=
  exists_mem_uniqueByIdentAux [] l a ha (by simp)

/-- When the input has pairwise distinct `ident`s, deduplicating the joined
rows recovers exactly the input members. -/
theorem mem_uniqueByIdent_joinedRows (db : Store) (matched : List Airport)
    (hnd : (matched.map Airport.ident).Nodup) (a : Airport) :
    a ∈ uniqueByIdent (joinedRows db matched) ↔ a ∈ matched := by
  constructor
  · intro h
    exact (mem_joinedRows db matched a).mp (mem_of_mem_uniqueByIdent _ a h)
  · intro h
    obtain ⟨b, hb, hbid⟩ :=
      exists_mem_uniqueByIdent _ a ((mem_joinedRows db matched a).mpr h)
    have hbm : b ∈ matched :=
      (mem_joinedRows db matched b).mp (mem_of_mem_uniqueByIdent _ b hb)
    have hba : b = a := List.inj_on_of_nodup_map hnd hbm h hbid
    exact hba ▸ hb

/-- In a list with pairwise distinct `ident`s, each present `ident` is hit
exactly once. -/
theorem countP_ident_eq_one (l : List Airport)
    (hnd : (l.map Airport.ident).Nodup) (a : Airport) (ha : a ∈ l) :
    l.countP (fun b => b.ident == a.ident) = 1 := by
  induction l with
  | nil => simp at ha
  | cons x rest ih =>
    simp only [List.map_cons, List.nodup_cons] at hnd
    rcases List.mem_cons.mp ha with rfl | ha2
    · rw [List.countP_cons_of_pos _ _ (by simp)]
      have hzero : rest.countP (fun b => b.ident == a.ident) = 0 := by
        rw [List.countP_eq_zero]
        intro b hb hba
        exact hnd.1 (List.mem_map.mpr ⟨b, hb, by simpa using hba⟩)
      rw [hzero]
    · have hne : x.ident ≠ a.ident := by
        intro he
        exact hnd.1 (List.mem_map.mpr ⟨a, ha2, he.symm⟩)
      rw [List.countP_cons]
      simp [hne, ih hnd.2 ha2]

/-! ## Properties of the auth gate -/

theorem verify_none (db : Store) :
    verify_api_key db none = .rejected 401 "Missing API key" := rfl

theorem verify_empty (db : Store) :
    verify_api_key db (some "") = .rejected 401 "Missing API key" := rfl

theorem verify_authorized_iff (db : Store) (k : String) (hk : k ≠ "") :
    verify_api_key db (some k) = .authorized ↔
      ∃ row ∈ db.apiKeys, row.key = k ∧ row.is_active = some true := by
  simp only [verify_api_key, if_neg hk]
  cases hfind : db.apiKeys.find? (fun row => row.key == k && row.is_active == some true) with
  | none =>
    simp only []
    constructor
    · intro h; exact absurd h (by simp)
    · rintro ⟨row, hrow, hkey, hact⟩
      have hsome : (db.apiKeys.find?
          (fun row => row.key == k && row.is_active == some true)).isSome :=
        List.find?_isSome.mpr ⟨row, hrow, by simp [hkey, hact]⟩
      rw [hfind] at hsome
      simp at hsome
  | some row =>
    simp only []
    constructor
    · intro _
      have hp := List.find?_some hfind
      have hmem := List.mem_of_find?_eq_some hfind
      simp only [Bool.and_eq_true, beq_iff_eq] at hp
      exact ⟨row, hmem, hp.1, hp.2⟩
    · intro _; trivial

theorem verify_rejected_of_no_active (db : Store) (k : String) (hk : k ≠ "")
    (hno : ¬∃ row ∈ db.apiKeys, row.key = k ∧ row.is_active = some true) :
    verify_api_key db (some k) = .rejected 401 "Invalid or inactive API key" := by
  simp only [verify_api_key, if_neg hk]
  cases hfind : db.apiKeys.find? (fun row => row.key == k && row.is_active == some true) with
  | none => rfl
  | some row =>
    exfalso
    have hp := List.find?_some hfind
    have hmem := List.mem_of_find?_eq_some hfind
    simp only [Bool.and_eq_true, beq_iff_eq] at hp
    exact hno ⟨row, hmem, hp.1, hp.2⟩

/-- The gate reads only the `api_keys` table: stores with the same keys give
the same decision. -/
theorem verify_depends_only_on_apiKeys (db db2 : Store) (key : Option String)
    (h : db2.apiKeys = db.apiKeys) :
    verify_api_key db2 key = verify_api_key db key := by
  cases key with
  | none => rfl
  | some k => simp only [verify_api_key, h]

/-! ## Properties of the route handler -/

/-- A `200` response carries exactly the serialized deduplicated match list. -/
theorem ok_views_eq (db : Store) (S : String) (vs : List AirportView)
    (h : get_airports_by_name db S = .ok vs) :
    vs = (findAirports db S).map (toAirportView db) := by
  rw [get_airports_by_name] at h
  by_cases hempty : (findAirports db S).isEmpty
  · rw [if_pos hempty] at h; cases h
  · rw [if_neg hempty] at h
    exact (QueryResult.ok.inj h).symm

/-- In a table whose keys are pairwise distinct, a `find?` by key equality
returns exactly the row holding that key. -/
theorem find?_by_key_eq {α : Type} (l : List α) (f : α → String)
    (hnd : (l.map f).Nodup) (key : Option String) (c : α) (hc : c ∈ l)
    (hkey : key = some (f c)) :
    l.find? (fun x => key == some (f x)) = some c := by
  have hsome : (l.find? (fun x => key == some (f x))).isSome :=
    List.find?_isSome.mpr ⟨c, hc, by simp [hkey]⟩
  obtain ⟨y, hy⟩ := Option.isSome_iff_exists.mp hsome
  have hmem := List.mem_of_find?_eq_some hy
  have hp := List.find?_some hy
  rw [hkey] at hp
  simp only [beq_iff_eq, Option.some.injEq] at hp
  have hyc : y = c := List.inj_on_of_nodup_map hnd hmem hc hp.symm
  rw [hy, hyc]

/-! ## Claims -/

/-- **C1, counterexample.**  The claim fails as stated when the query
contains a LIKE metacharacter: the query `_` selects the airport named and
identified `AB`, yet neither `AB`'s name nor its ident contains `_` as a
(case-insensitive) substring, because the path parameter is interpolated
unescaped into the LIKE pattern. -/
theorem C1_counterexample :
    airportAB ∈ findAirports db1 "_" ∧
      ¬((∃ nm, airportAB.name = some nm ∧ containsCI nm "_" = true) ∨
        containsCI airportAB.ident "_" = true) := by
  constructor
  · have h : findAirports db1 "_" = [airportAB] := rfl
    rw [h]
    exact List.mem_cons_self _ _
  · rintro (⟨nm, hnm, hc⟩ | hc)
    · have hnm' : nm = "AB" := by
        have h : (some "AB" : Option String) = some nm := hnm
        exact (Option.some_inj.mp h).symm
      rw [hnm'] at hc
      exact absurd hc (by decide)
    · exact absurd hc (by decide)

/-- **C1** (amended): for every airport `A` in the store and every query `S`
containing none of the LIKE metacharacters `%`, `_`, `\`, the result of
`findAirportsByNameOrIdent(S)` includes `A` iff `A.name` or `A.ident`
contains `S` as a case-insensitive, unanchored substring.  (For queries with
metacharacters the match instead follows SQL LIKE pattern semantics.) -/
theorem C1_theorem (db : Store) (S : String) (a : Airport) (hwf : db.WF)
    (hclean : ∀ c ∈ S.toList, c ≠ '%' ∧ c ≠ '_' ∧ c ≠ '\\') :
    a ∈ findAirports db S ↔
      a ∈ db.airports ∧
        ((∃ nm, a.name = some nm ∧ containsCI nm S = true) ∨
          containsCI a.ident S = true) := by
  have hsub : List.Sublist
      ((db.airports.filter (fun x => airportMatches x S)).map Airport.ident)
      (db.airports.map Airport.ident) :=
    List.Sublist.map Airport.ident (List.filter_sublist _)
  have hnd := List.Nodup.sublist hsub hwf.1
  rw [findAirports, mem_uniqueByIdent_joinedRows db _ hnd, List.mem_filter,
    airportMatches_iff a S hclean]

/-- **C1, witness.** -/
theorem C1_witness :
    kjfk ∈ findAirports dbJFK "JFK" ↔
      kjfk ∈ dbJFK.airports ∧
        ((∃ nm, kjfk.name = some nm ∧ containsCI nm "JFK" = true) ∨
          containsCI kjfk.ident "JFK" = true) :=
  C1_theorem dbJFK "JFK" kjfk (by decide) (by decide)

/-- **C2.**  The auth gate rejects a missing or empty key with the
`Missing API key` reason; for a non-empty presented key it authorizes exactly
when the store holds a row with that key and `is_active` true, and otherwise
rejects with the `Invalid or inactive API key` reason — both as 401s. -/
theorem C2_theorem (db : Store) (k : String) :
    verify_api_key db none = .rejected 401 "Missing API key" ∧
    verify_api_key db (some "") = .rejected 401 "Missing API key" ∧
    (k ≠ "" →
      (verify_api_key db (some k) = .authorized ↔
        ∃ row ∈ db.apiKeys, row.key = k ∧ row.is_active = some true)) ∧
    (k ≠ "" → (¬∃ row ∈ db.apiKeys, row.key = k ∧ row.is_active = some true) →
      verify_api_key db (some k) = .rejected 401 "Invalid or inactive API key") :=
  ⟨verify_none db, verify_empty db,
    fun hk => verify_authorized_iff db k hk,
    fun hk hno => verify_rejected_of_no_active db k hk hno⟩

/-- **C2, witness.** -/
theorem C2_witness :
    verify_api_key dbJFK (some "valid-key") = .authorized ∧
      verify_api_key dbJFK none = .rejected 401 "Missing API key" := by
  refine ⟨?_, (C2_theorem dbJFK "valid-key").1⟩
  exact ((C2_theorem dbJFK "valid-key").2.2.1 (by decide)).mpr
    ⟨activeKey, by simp [dbJFK], rfl, rfl⟩

/-- **C3.**  A query matching no airport yields the 404 `NotFound` outcome
with its descriptive message; a query with at least one match yields the 200
outcome with a non-empty list. -/
theorem C3_theorem (db : Store) (S : String) :
    ((∀ a ∈ db.airports, airportMatches a S = false) →
      get_airports_by_name db S =
        .notFound 404 "No airport found with that name or ident") ∧
    ((∃ a ∈ db.airports, airportMatches a S = true) →
      ∃ vs, get_airports_by_name db S = .ok vs ∧ vs ≠ []) := by
  constructor
  · intro hnone
    have hfilter : db.airports.filter (fun a => airportMatches a S) = [] :=
      List.filter_eq_nil_iff.mpr (fun a ha => by simp [hnone a ha])
    have hempty : findAirports db S = [] := by
      rw [findAirports, hfilter]
      rfl
    rw [get_airports_by_name, if_pos (by simp [hempty])]
  · rintro ⟨a, ha, hm⟩
    have hfm : a ∈ db.airports.filter (fun x => airportMatches x S) :=
      List.mem_filter.mpr ⟨ha, hm⟩
    obtain ⟨b, hb, _⟩ :=
      exists_mem_uniqueByIdent _ a ((mem_joinedRows db _ a).mpr hfm)
    have hb' : b ∈ findAirports db S := hb
    have hne : ¬(findAirports db S).isEmpty = true := by
      simp only [List.isEmpty_iff]
      exact List.ne_nil_of_mem hb'
    refine ⟨(findAirports db S).map (toAirportView db), ?_, ?_⟩
    · rw [get_airports_by_name, if_neg hne]
    · simp [List.ne_nil_of_mem hb']

/-- **C3, witness.** -/
theorem C3_witness :
    get_airports_by_name dbJFK "ZZZZ" =
      .notFound 404 "No airport found with that name or ident" :=
  (C3_theorem dbJFK "ZZZZ").1 (by decide)

/-- **C4.**  Each matching airport appears exactly once in the deduplicated
result, regardless of how many related rows (in particular navaids, the one
relationship whose eager load multiplies rows) it joins against. -/
theorem C4_theorem (db : Store) (S : String) (a : Airport)
    (ha : a ∈ db.airports) (hm : airportMatches a S = true) :
    (findAirports db S).countP (fun b => b.ident == a.ident) = 1 := by
  have hfm : a ∈ db.airports.filter (fun x => airportMatches x S) :=
    List.mem_filter.mpr ⟨ha, hm⟩
  have hnd :=
    nodup_ident_uniqueByIdent
      (joinedRows db (db.airports.filter (fun x => airportMatches x S)))
  obtain ⟨b, hb, hbid⟩ :=
    exists_mem_uniqueByIdent _ a ((mem_joinedRows db _ a).mpr hfm)
  have hcount : (findAirports db S).countP (fun x => x.ident == b.ident) = 1 :=
    countP_ident_eq_one _ hnd b hb
  simpa [hbid] using hcount

/-- **C4, witness** (the matching airport has two navaids, so the joined row
set contains it twice; it still appears exactly once). -/
theorem C4_witness :
    (findAirports db4 "KAAA").countP (fun b => b.ident == airportKAAA.ident) = 1 :=
  C4_theorem db4 "KAAA" airportKAAA (by decide) (by decide)

/-- **C5, counterexample.**  The claim's "a navaid whose `associated_airport`
is blank appears under no airport" clause fails: the SQL join is plain string
equality, so a navaid with `associated_airport = ''` is listed under an
airport whose `ident` is `''`, and the engine returns it. -/
theorem C5_counterexample :
    ∃ vs, get_airports_by_name db5 "" = QueryResult.ok vs ∧
      ∃ v ∈ vs, ∃ n ∈ v.navaids, n.associated_airport = some "" := by
  refine ⟨[toAirportView db5 blankAirport], rfl,
    toAirportView db5 blankAirport, List.mem_cons_self _ _, blankNavaid, ?_, rfl⟩
  have h : (toAirportView db5 blankAirport).navaids = [blankNavaid] := rfl
  rw [h]
  exact List.mem_cons_self _ _

/-- **C5** (amended): for every airport view returned by the engine, a navaid
appears in its navaid list iff it is a stored navaid whose
`associated_airport` equals that airport's `ident`; a navaid whose
`associated_airport` is null (or matches no airport ident) appears under no
returned airport and never causes an error.  (A blank `associated_airport`
is not special: like any other string it associates exactly to an airport
whose `ident` is that same string.) -/
theorem C5_theorem (db : Store) (S : String) (vs : List AirportView)
    (v : AirportView) (n : Navaid)
    (hok : get_airports_by_name db S = .ok vs) (hv : v ∈ vs) :
    (n ∈ v.navaids ↔ n ∈ db.navaids ∧ n.associated_airport = some v.ident) ∧
    (n.associated_airport = none → n ∉ v.navaids) := by
  have hvs := ok_views_eq db S vs hok
  subst hvs
  obtain ⟨a, _, rfl⟩ := List.mem_map.mp hv
  have hiff : n ∈ (toAirportView db a).navaids ↔
      n ∈ db.navaids ∧ n.associated_airport = some (toAirportView db a).ident := by
    show n ∈ db.navaids.filter (fun x => x.associated_airport == some a.ident) ↔ _
    rw [List.mem_filter]
    simp [toAirportView]
  refine ⟨hiff, ?_⟩
  intro hnone hmem
  have := (hiff.mp hmem).2
  rw [hnone] at this
  cases this

/-- **C5, witness.** -/
theorem C5_witness :
    (navaidKAAA1 ∈ (toAirportView db4 airportKAAA).navaids ↔
      navaidKAAA1 ∈ db4.navaids ∧
        navaidKAAA1.associated_airport = some (toAirportView db4 airportKAAA).ident) ∧
    (navaidKAAA1.associated_airport = none →
      navaidKAAA1 ∉ (toAirportView db4 airportKAAA).navaids) :=
  C5_theorem db4 "KAAA" ((findAirports db4 "KAAA").map (toAirportView db4))
    (toAirportView db4 airportKAAA) navaidKAAA1 rfl (by decide)

/-- **C6.**  Every airport view returned by the engine carries the full
sequences of its runways and frequencies — exactly the stored rows whose
`airport_ident` equals the view's `ident` — resolved before the response is
returned, even though the explicit eager-load options only cover
type/country/region/navaids. -/
theorem C6_theorem (db : Store) (S : String) (vs : List AirportView)
    (v : AirportView) (r : Runway) (f : Frequency)
    (hok : get_airports_by_name db S = .ok vs) (hv : v ∈ vs) :
    (r ∈ v.runways ↔ r ∈ db.runways ∧ r.airport_ident = some v.ident) ∧
    (f ∈ v.frequencies ↔ f ∈ db.frequencies ∧ f.airport_ident = some v.ident) := by
  have hvs := ok_views_eq db S vs hok
  subst hvs
  obtain ⟨a, _, rfl⟩ := List.mem_map.mp hv
  constructor
  · show r ∈ db.runways.filter (fun x => x.airport_ident == some a.ident) ↔ _
    rw [List.mem_filter]
    simp [toAirportView]
  · show f ∈ db.frequencies.filter (fun x => x.airport_ident == some a.ident) ↔ _
    rw [List.mem_filter]
    simp [toAirportView]

/-- **C6, witness:** the specification's concrete KJFK scenario.  A matching
authorized request returns one object with `ident = "KJFK"`, one runway, one
frequency and no navaids, and the runway membership law holds for it. -/
theorem C6_witness :
    handleRequest dbJFK (some "valid-key") "JFK" =
      (.ok [toAirportView dbJFK kjfk], true) ∧
    (kjfkRunway ∈ (toAirportView dbJFK kjfk).runways ↔
      kjfkRunway ∈ dbJFK.runways ∧
        kjfkRunway.airport_ident = some (toAirportView dbJFK kjfk).ident) ∧
    (toAirportView dbJFK kjfk).ident = "KJFK" ∧
    (toAirportView dbJFK kjfk).runways.length = 1 ∧
    (toAirportView dbJFK kjfk).frequencies.length = 1 ∧
    (toAirportView dbJFK kjfk).navaids.length = 0 := by
  refine ⟨rfl, ?_, rfl, rfl, rfl, rfl⟩
  exact (C6_theorem dbJFK "JFK" ((findAirports dbJFK "JFK").map (toAirportView dbJFK))
    (toAirportView dbJFK kjfk) kjfkRunway kjfkFrequency rfl (by decide)).1

/-- **C7.**  Every returned airport view resolves its nested `country`,
`region` and `airport_type` to exactly the reference-table row whose code
matches its `iso_country` / `iso_region` / `type` when such a row exists, and
to `none` when none does; the collection-valued fields are lists (hence never
null) and are empty when no related row matches. -/
theorem C7_theorem (db : Store) (S : String) (vs : List AirportView)
    (v : AirportView) (hwf : db.WF)
    (hok : get_airports_by_name db S = .ok vs) (hv : v ∈ vs) :
    (∀ c ∈ db.countries, v.iso_country = some c.code → v.country = some c) ∧
    ((∀ c ∈ db.countries, v.iso_country ≠ some c.code) → v.country = none) ∧
    (∀ r ∈ db.regions, v.iso_region = some r.code → v.region = some r) ∧
    ((∀ r ∈ db.regions, v.iso_region ≠ some r.code) → v.region = none) ∧
    (∀ t ∈ db.airportTypes, v.type = some t.code → v.airport_type = some t) ∧
    ((∀ t ∈ db.airportTypes, v.type ≠ some t.code) → v.airport_type = none) ∧
    ((∀ r ∈ db.runways, r.airport_ident ≠ some v.ident) → v.runways = []) ∧
    ((∀ f ∈ db.frequencies, f.airport_ident ≠ some v.ident) → v.frequencies = []) ∧
    ((∀ n ∈ db.navaids, n.associated_airport ≠ some v.ident) → v.navaids = []) := by
  have hvs := ok_views_eq db S vs hok
  subst hvs
  obtain ⟨a, _, rfl⟩ := List.mem_map.mp hv
  refine ⟨?_, ?_, ?_, ?_, ?_, ?_, ?_, ?_, ?_⟩
  · intro c hc hkey
    exact find?_by_key_eq db.countries Country.code hwf.2.1 a.iso_country c hc hkey
  · intro hno
    show List.find? _ _ = none
    rw [List.find?_eq_none]
    intro c hc
    simpa using hno c hc
  · intro r hr hkey
    exact find?_by_key_eq db.regions Region.code hwf.2.2.1 a.iso_region r hr hkey
  · intro hno
    show List.find? _ _ = none
    rw [List.find?_eq_none]
    intro r hr
    simpa using hno r hr
  · intro t ht hkey
    exact find?_by_key_eq db.airportTypes AirportType.code hwf.2.2.2.1 a.type t ht hkey
  · intro hno
    show List.find? _ _ = none
    rw [List.find?_eq_none]
    intro t ht
    simpa using hno t ht
  · intro hno
    show List.filter _ _ = []
    rw [List.filter_eq_nil_iff]
    intro r hr
    simpa using hno r hr
  · intro hno
    show List.filter _ _ = []
    rw [List.filter_eq_nil_iff]
    intro f hf
    simpa using hno f hf
  · intro hno
    show List.filter _ _ = []
    rw [List.filter_eq_nil_iff]
    intro n hn
    simpa using hno n hn

/-- **C7, witness.** -/
theorem C7_witness :
    (toAirportView dbJFK kjfk).country = some usCountry ∧
      (toAirportView dbJFK kjfk).navaids = [] := by
  have h := C7_theorem dbJFK "JFK"
    ((findAirports dbJFK "JFK").map (toAirportView dbJFK))
    (toAirportView dbJFK kjfk) (by decide) rfl (by decide)
  exact ⟨h.1 usCountry (by decide) rfl, h.2.2.2.2.2.2.2.2 (by decide)⟩

/-- **C8.**  A key present in the store but inactive and a key absent from
the store produce identical rejections: same 401 status, same
`Invalid or inactive API key` reason, and identical whole responses. -/
theorem C8_theorem (db : Store) (name k1 k2 : String) (hwf : db.WF)
    (h1ne : k1 ≠ "") (h2ne : k2 ≠ "")
    (h1 : ∃ row ∈ db.apiKeys, row.key = k1 ∧ row.is_active = some false)
    (h2 : ∀ row ∈ db.apiKeys, row.key ≠ k2) :
    handleRequest db (some k1) name = handleRequest db (some k2) name ∧
      handleRequest db (some k1) name =
        (.unauthorized 401 "Invalid or inactive API key", false) := by
  obtain ⟨row, hrow, hkey, hact⟩ := h1
  have hno1 : ¬∃ r ∈ db.apiKeys, r.key = k1 ∧ r.is_active = some true := by
    rintro ⟨r, hr, hrkey, hract⟩
    have hreq : r = row :=
      List.inj_on_of_nodup_map hwf.2.2.2.2 hr hrow (by rw [hrkey, hkey])
    rw [hreq, hact] at hract
    cases hract
  have hno2 : ¬∃ r ∈ db.apiKeys, r.key = k2 ∧ r.is_active = some true := by
    rintro ⟨r, hr, hrkey, _⟩
    exact h2 r hr hrkey
  have hv1 := verify_rejected_of_no_active db k1 h1ne hno1
  have hv2 := verify_rejected_of_no_active db k2 h2ne hno2
  constructor
  · simp only [handleRequest, hv1, hv2]
  · simp only [handleRequest, hv1]

/-- **C8, witness.** -/
theorem C8_witness :
    handleRequest dbJFK (some "inactive-key") "JFK" =
        handleRequest dbJFK (some "absent-key") "JFK" ∧
      handleRequest dbJFK (some "inactive-key") "JFK" =
        (.unauthorized 401 "Invalid or inactive API key", false) :=
  C8_theorem dbJFK "JFK" "inactive-key" "absent-key" (by decide) (by decide)
    (by decide) (by decide) (by decide)

/-- **C9.**  The auth gate runs before the route handler on every request;
when it rejects, the response is exactly the unauthorized outcome, the
airport query is never executed, and the response does not depend on any
table other than `api_keys`. -/
theorem C9_theorem (db : Store) (key : Option String) (name : String)
    (s : Nat) (d : String)
    (hrej : verify_api_key db key = .rejected s d) :
    handleRequest db key name = (.unauthorized s d, false) ∧
      ∀ db2 : Store, db2.apiKeys = db.apiKeys →
        handleRequest db2 key name = (.unauthorized s d, false) := by
  constructor
  · simp only [handleRequest, hrej]
  · intro db2 h
    simp only [handleRequest, verify_depends_only_on_apiKeys db db2 key h, hrej]

/-- **C9, witness.** -/
theorem C9_witness :
    handleRequest dbJFK none "JFK" =
      (.unauthorized 401 "Missing API key", false) :=
  (C9_theorem dbJFK none "JFK" 401 "Missing API key" rfl).1

/-- **C10.**  A query consisting of the LIKE metacharacter `%` returns an
airport (`AB`) whose name and ident do not contain `%` as a literal
substring: the path parameter is interpolated unescaped into the LIKE
pattern, so its wildcards keep their pattern meaning. -/
theorem C10_theorem :
    (∃ vs, get_airports_by_name db1 "%" = QueryResult.ok vs ∧
      ∃ v ∈ vs, v.ident = "AB" ∧ v.name = some "AB") ∧
    containsCI "AB" "%" = false := by
  refine ⟨⟨[toAirportView db1 airportAB], rfl,
    toAirportView db1 airportAB, List.mem_cons_self _ _, rfl, rfl⟩, by decide⟩
